import Mathlib

/-!
Verification development for `prometheus-sensor-exporter`.

The Go sources are shallowly embedded below.  Floating-point values are
modelled as real numbers (the numeric tolerances in the checked properties
are many orders of magnitude above double rounding error), Go `error`
values as `String`, Go nil-able pointers as `Option`, and the fallible
hardware bus reads as explicit `Except`-valued inputs to the poll
functions.  Definitions follow the final revision of
`prometheus-sensor-exporter.go` and `humidity.go`.
-/

namespace SensorExporter

/-! ## humidity.go -/

/-- Constant `R` from humidity.go: molar gas constant. -/
noncomputable def R : ℝ := 8.31446261815324

/-- Constant `M_water` from humidity.go: molar mass of water in kg/mol. -/
noncomputable def M_water : ℝ := 0.01801528

/-- Constant `R_water` from humidity.go: specific gas constant for water vapor. -/
noncomputable def R_water : ℝ := R / M_water

/-- `saturationVaporPressureWater` from humidity.go: saturation vapour pressure
of water in hPa by the Arden Buck equation. -/
noncomputable def saturationVaporPressureWater (tempCelsius : ℝ) : ℝ :=
  6.1121 * Real.exp ((18.678 - tempCelsius / 234.5) * (tempCelsius / (257.14 + tempCelsius)))

/-- `Relative2AbsoluteHumidity` from humidity.go: absolute humidity in g/m³
from relative humidity (percent) and temperature (Celsius). -/
noncomputable def Relative2AbsoluteHumidity (rh : ℝ) (tempCelsius : ℝ) : ℝ :=
  1000 * rh * saturationVaporPressureWater tempCelsius / (R_water * (tempCelsius + 273.15))

/-- The Humidity Converter formula exactly as the spec (§4.4) and claim C6
write it, for refinement comparison with `Relative2AbsoluteHumidity`. -/
noncomputable def specAbsoluteHumidity (rh tC : ℝ) : ℝ :=
  1000 * rh * 6.1121 * Real.exp ((18.678 - tC / 234.5) * (tC / (257.14 + tC))) /
    (8.31446261815324 / 0.01801528 * (tC + 273.15))

/-! ## Rounding (round64 from prometheus-sensor-exporter.go) -/

/-- Go's `math.Round` (external stdlib collaborator): rounds to the nearest
integer, halves away from zero. -/
noncomputable def mathRound (x : ℝ) : ℝ :=
  if x < 0 then -((⌊-x + 1/2⌋ : ℤ) : ℝ) else ((⌊x + 1/2⌋ : ℤ) : ℝ)

/-- `round64` from prometheus-sensor-exporter.go:
`math.Round(value*math.Pow10(precision)) / math.Pow10(precision)`. -/
noncomputable def round64 (value : ℝ) (precision : ℤ) : ℝ :=
  mathRound (value * 10 ^ precision) / 10 ^ precision

/-! ## Readings and the two Poll implementations -/

/-- `Readings` struct: two independently optional raw values. -/
structure Readings where
  temperature : Option ℝ
  humidity : Option ℝ

/-- `SHT3xSensor.Poll`: one combined temperature+humidity hardware read
(passed in as its fallible result); on failure the zero-value `Readings`
(both fields nil) is returned together with the error, on success both
values are rounded to 2 decimals. -/
noncomputable def SHT3xSensorPoll (readResult : Except String (ℝ × ℝ)) :
    Readings × Option String :=
  match readResult with
  | .error e => (⟨none, none⟩, some e)
  | .ok (temp, rh) => (⟨some (round64 temp 2), some (round64 rh 2)⟩, none)

/-- `BME280Sensor.Poll`: a temperature read followed by a humidity read
(each passed in as its fallible result; the humidity read only happens when
the temperature read succeeded, so `humRead` is ignored otherwise — the
`Bool` mirrors the ignored first return value of `ReadHumidityRH`).
The temperature is stored into the returned `Readings` before the humidity
read is attempted. -/
noncomputable def BME280SensorPoll (tempRead : Except String ℝ)
    (humRead : Except String (Bool × ℝ)) : Readings × Option String :=
  match tempRead with
  | .error e => (⟨none, none⟩, some e)
  | .ok temp =>
    match humRead with
    | .error e => (⟨some (round64 temp 2), none⟩, some e)
    | .ok (_, rh) => (⟨some (round64 temp 2), some (round64 rh 2)⟩, none)

/-! ## The collector (sensorCollector.Collect / Describe) -/

/-- The six metric descriptors a `sensorCollector` holds, named after its
struct fields. -/
inductive DescField
  | Up
  | TemperatureC
  | HumidityRH
  | HumidityGram
  | RawTempC
  | RawHumidityRH
deriving DecidableEq, BEq, Repr

/-- The metric name each descriptor carries, from the
`prometheus.NewDesc` calls in `NewSensorCollector`. -/
def descName : DescField → String
  | .Up => "sensor_up"
  | .TemperatureC => "sensor_temperature_celsius"
  | .HumidityRH => "sensor_humidity_percent"
  | .HumidityGram => "sensor_humidity_grams_per_cubic_meter"
  | .RawTempC => "sensor_raw_temperature_celsius"
  | .RawHumidityRH => "sensor_raw_humidity_percent"

/-- One emitted metric: which descriptor and the gauge value. -/
structure Metric where
  desc : DescField
  value : ℝ

/-- `sensorCollector.Collect`, as the ordered list of metrics sent on the
channel for one scrape, given the result of `Sensor.Poll()` and the
collector's offsets.  The code logs the poll error but never raises; after
the `sensor_up` metric it falls through to the `readings` checks without
returning early. -/
noncomputable def Collect (poll : Readings × Option String)
    (tempOffset humidityOffset : ℝ) : List Metric :=
  let readings := poll.1
  (match poll.2 with
   | some _ => [⟨.Up, 0⟩]
   | none => [⟨.Up, 1⟩]) ++
  (match readings.temperature with
   | some t => [⟨.TemperatureC, t + tempOffset⟩, ⟨.RawTempC, t⟩]
   | none => []) ++
  (match readings.humidity with
   | some h =>
    [⟨.HumidityRH, h + humidityOffset⟩, ⟨.RawHumidityRH, h⟩] ++
    (match readings.temperature with
     | some t =>
      [⟨.HumidityGram,
        round64 (Relative2AbsoluteHumidity (h + humidityOffset) (t + tempOffset)) 2⟩]
     | none => [])
   | none => [])

/-- `sensorCollector.Describe`: the descriptors sent on the describe
channel, in order.  A pure enumeration of stored descriptors — it performs
no hardware access. -/
def Describe : List DescField := [.TemperatureC, .HumidityRH, .HumidityGram, .Up]

/-! ## The descriptor parser (parseSensorFlags and strconv collaborators)

Go's `strings.Split`/`strings.SplitN` and the `strconv` parsers are external
standard-library collaborators; they are modelled structurally below on the
numeric-literal forms the spec names (decimal and `0x`-prefixed hex for
integers, plain decimal/exponent notation for floats).  Digit-group
underscores and `Inf`/`NaN`/hex floats are not modelled — no input of this
repository uses them. -/

/-- `strings.Split` with a one-character separator: splits into the (always
non-empty) list of separator-free groups. -/
def splitOnChar (sep : Char) : List Char → List (List Char)
  | [] => [[]]
  | c :: rest =>
    let r := splitOnChar sep rest
    if c = sep then [] :: r
    else
      match r with
      | [] => [[c]]
      | g :: gs => (c :: g) :: gs

/-- `strings.SplitN (·) "=" 2`: key before the first `=`, value everything
after it; `none` when no `=` occurs. -/
def splitFirstEq : List Char → Option (List Char × List Char)
  | [] => none
  | c :: rest =>
    if c = '=' then some ([], rest)
    else (splitFirstEq rest).map (fun p => (c :: p.1, p.2))

def isDecDigit (c : Char) : Bool := '0' ≤ c && c ≤ '9'

/-- Value of one digit character in bases up to 36, as Go's strconv accepts. -/
def digitVal (c : Char) : Option Nat :=
  if '0' ≤ c ∧ c ≤ '9' then some (c.toNat - Char.toNat '0')
  else if 'a' ≤ c ∧ c ≤ 'z' then some (c.toNat - Char.toNat 'a' + 10)
  else if 'A' ≤ c ∧ c ≤ 'Z' then some (c.toNat - Char.toNat 'A' + 10)
  else none

/-- Accumulate digit characters in the given base; `none` on any invalid digit. -/
def parseDigits (base : Nat) (cs : List Char) : Option Nat :=
  cs.foldl
    (fun acc c => do
      let a ← acc
      let d ← digitVal c
      if d < base then some (a * base + d) else none)
    (some 0)

/-- Base detection of strconv's base-0 mode: `0x`/`0X` hex, `0b`/`0B` binary,
`0o`/`0O` octal, legacy leading-zero octal, else decimal. -/
def baseAndDigits : List Char → Nat × List Char
  | '0' :: 'x' :: rest => (16, rest)
  | '0' :: 'X' :: rest => (16, rest)
  | '0' :: 'b' :: rest => (2, rest)
  | '0' :: 'B' :: rest => (2, rest)
  | '0' :: 'o' :: rest => (8, rest)
  | '0' :: 'O' :: rest => (8, rest)
  | '0' :: rest => if rest = [] then (10, [ '0' ]) else (8, rest)
  | cs => (10, cs)

/-- Unsigned magnitude parse of a character list in base-0 mode. -/
def goParseNatCore (cs : List Char) : Except String Nat :=
  if cs = [] then .error "invalid syntax"
  else
    let bd := baseAndDigits cs
    if bd.2 = [] then .error "invalid syntax"
    else
      match parseDigits bd.1 bd.2 with
      | none => .error "invalid syntax"
      | some n => .ok n

/-- `strconv.ParseUint(s, 0, bitSize)`: no sign permitted; range-checked. -/
def goParseUint (s : String) (bitSize : Nat) : Except String Nat :=
  match goParseNatCore s.data with
  | .error e => .error e
  | .ok n => if n < 2 ^ bitSize then .ok n else .error "value out of range"

/-- `strconv.ParseInt(s, 0, bitSize)`: optional sign, then base-0 magnitude;
range-checked against the signed interval. -/
def goParseInt (s : String) (bitSize : Nat) : Except String Int :=
  match s.data with
  | '-' :: rest =>
    match goParseNatCore rest with
    | .error e => .error e
    | .ok n => if n ≤ 2 ^ (bitSize - 1) then .ok (-(n : Int)) else .error "value out of range"
  | '+' :: rest =>
    match goParseNatCore rest with
    | .error e => .error e
    | .ok n => if n < 2 ^ (bitSize - 1) then .ok (n : Int) else .error "value out of range"
  | cs =>
    match goParseNatCore cs with
    | .error e => .error e
    | .ok n => if n < 2 ^ (bitSize - 1) then .ok (n : Int) else .error "value out of range"

/-- Numeric value of a list of decimal digit characters. -/
def decDigitsToNat (cs : List Char) : Nat :=
  cs.foldl (fun a c => a * 10 + (c.toNat - Char.toNat '0')) 0

/-- Apply the exponent part of a float literal to an already-parsed
mantissa-and-scale pair (the value is `mantissa / 10 ^ scale`). -/
def goApplyExp (mantissa scale : Nat) : List Char → Except String (Nat × Nat)
  | '-' :: ds =>
    if ds ≠ [] ∧ ds.all isDecDigit then .ok (mantissa, scale + decDigitsToNat ds)
    else .error "invalid syntax"
  | '+' :: ds =>
    if ds ≠ [] ∧ ds.all isDecDigit then .ok (mantissa * 10 ^ decDigitsToNat ds, scale)
    else .error "invalid syntax"
  | ds =>
    if ds ≠ [] ∧ ds.all isDecDigit then .ok (mantissa * 10 ^ decDigitsToNat ds, scale)
    else .error "invalid syntax"

/-- Unsigned decimal float literal: digits, optional fraction, optional
exponent; yields the mantissa-and-scale pair whose value is
`mantissa / 10 ^ scale`.  The exact value is modelled (double rounding is
far below every tolerance checked here). -/
def goParseFloatMag (cs : List Char) : Except String (Nat × Nat) :=
  let intPart := cs.takeWhile isDecDigit
  let rest := cs.dropWhile isDecDigit
  match rest with
  | [] =>
    if intPart = [] then .error "invalid syntax" else .ok (decDigitsToNat intPart, 0)
  | '.' :: rest2 =>
    let fracPart := rest2.takeWhile isDecDigit
    let rest3 := rest2.dropWhile isDecDigit
    if intPart = [] ∧ fracPart = [] then .error "invalid syntax"
    else
      let mantissa := decDigitsToNat (intPart ++ fracPart)
      match rest3 with
      | [] => .ok (mantissa, fracPart.length)
      | 'e' :: expPart => goApplyExp mantissa fracPart.length expPart
      | 'E' :: expPart => goApplyExp mantissa fracPart.length expPart
      | _ => .error "invalid syntax"
  | 'e' :: expPart =>
    if intPart = [] then .error "invalid syntax"
    else goApplyExp (decDigitsToNat intPart) 0 expPart
  | 'E' :: expPart =>
    if intPart = [] then .error "invalid syntax"
    else goApplyExp (decDigitsToNat intPart) 0 expPart
  | _ => .error "invalid syntax"

/-- `strconv.ParseFloat(s, 64)` on the decimal forms this repository feeds it. -/
def goParseFloat (s : String) : Except String ℚ :=
  match s.data with
  | '-' :: rest => (goParseFloatMag rest).map (fun p => mkRat (-(p.1 : Int)) (10 ^ p.2))
  | '+' :: rest => (goParseFloatMag rest).map (fun p => mkRat (p.1 : Int) (10 ^ p.2))
  | cs => (goParseFloatMag cs).map (fun p => mkRat (p.1 : Int) (10 ^ p.2))

/-- `SensorFlags` struct: the parsed configuration record.  Go nil-able
pointers become `Option`; the field defaults are Go's zero values. -/
structure SensorFlags where
  Model : String := ""
  Address : Option Nat := none
  Bus : Option Int := none
  Repeatability : String := ""
  TempOffset : ℚ := 0
  HumidityOffset : ℚ := 0
deriving DecidableEq, Repr

/-- One iteration of the field loop in `parseSensorFlags`: split the field at
the first `=` (value defaults to the empty string) and dispatch on the key,
with the exact error strings of the source. -/
def processField (flags : SensorFlags) (field : String) : Except String SensorFlags :=
  let kv :=
    match splitFirstEq field.data with
    | none => (field.data, ([] : List Char))
    | some p => p
  let key := String.mk kv.1
  let value := String.mk kv.2
  match key with
  | "address" =>
    match goParseUint value 8 with
    | .ok address => .ok { flags with Address := some address }
    | .error err =>
      .error ("Specified address '" ++ value ++ "' is not an unsigned integer: " ++ err)
  | "bus" =>
    match goParseInt value 32 with
    | .ok bus => .ok { flags with Bus := some bus }
    | .error err =>
      .error ("Specified bus '" ++ value ++ "' is not an integer: " ++ err)
  | "repeatability" => .ok { flags with Repeatability := value }
  | "temp_offset" =>
    match goParseFloat value with
    | .ok q => .ok { flags with TempOffset := q }
    | .error err =>
      .error ("Failed to parse temperature offset '" ++ value ++ "': " ++ err)
  | "humidity_offset" =>
    match goParseFloat value with
    | .ok q => .ok { flags with HumidityOffset := q }
    | .error err =>
      .error ("Failed to parse humidity offset '" ++ value ++ "': " ++ err)
  | _ => .error ("Unknown sensor option '" ++ key ++ "'.")

/-- The field loop of `parseSensorFlags`: first error wins (the source
`return`s out of the loop). -/
def processFields (flags : SensorFlags) : List String → Except String SensorFlags
  | [] => .ok flags
  | field :: rest =>
    match processField flags field with
    | .ok flags2 => processFields flags2 rest
    | .error e => .error e

/-- `parseSensorFlags` from prometheus-sensor-exporter.go: comma-split, first
field is the model, remaining fields go through the key dispatch. -/
def parseSensorFlags (sensor : String) : Except String SensorFlags :=
  match (splitOnChar ',' sensor.data).map String.mk with
  | [] => .ok {}
  | model :: rest => processFields { Model := model } rest

/-- Decimal expansion of a proper fraction `num/den` (`num < den`),
most-significant digit first, stopping at the fuel bound or when the
remainder vanishes. -/
def decimalFracDigits (den : Nat) : Nat → Nat → List Char
  | _, 0 => []
  | num, fuel + 1 =>
    if num = 0 then []
    else Nat.digitChar (num * 10 / den) :: decimalFracDigits den (num * 10 % den) fuel

/-- fmt's `%g` for a nonnegative `n / d` with a short decimal expansion
(every offset this repository renders is one; the scientific-notation
fallback of `%g` for extreme magnitudes is not modelled). -/
def formatFloatGCore (n d : Nat) : String :=
  let frac := decimalFracDigits d (n % d) 17
  toString (n / d) ++ (if frac = [] then "" else "." ++ String.mk frac)

/-- fmt's `%g` verb as used for the two offset fields. -/
def formatFloatG (q : ℚ) : String :=
  if q.num < 0 then "-" ++ formatFloatGCore q.num.natAbs q.den
  else formatFloatGCore q.num.natAbs q.den

/-- `SensorFlags.String` from prometheus-sensor-exporter.go (named
`RenderString` here because `String` would shadow the string type inside the
declaration): model first, then each explicitly-set field in source order.
Note the source really writes the repeatability key as `,repeatablility=`
(sic). -/
def SensorFlags.RenderString (s : SensorFlags) : String :=
  s.Model ++
  (match s.Address with
   | some a => ",address=0x" ++ String.mk (Nat.toDigits 16 a)
   | none => "") ++
  (match s.Bus with
   | some b => ",bus=" ++ toString b
   | none => "") ++
  (if s.Repeatability ≠ "" then ",repeatablility=" ++ s.Repeatability else "") ++
  (if s.TempOffset ≠ 0 then ",temp_offset=" ++ formatFloatG s.TempOffset else "") ++
  (if s.HumidityOffset ≠ 0 then ",humidity_offset=" ++ formatFloatG s.HumidityOffset else "")

/-- Helper for the batch parser: parse the descriptors from 1-based index `i`
on. -/
def parseSensorsFrom (i : Nat) : List String → Except String (List SensorFlags)
  | [] => .ok []
  | arg :: rest =>
    match parseSensorFlags arg with
    | .error e => .error ("sensor " ++ toString i ++ " '" ++ arg ++ "': " ++ e)
    | .ok flags => (parseSensorsFrom (i + 1) rest).map (fun l => flags :: l)

/-- Modelled from the spec: the batch parser `parseSensors` is exercised by
the repository's tests but its definition is missing from the provided
sources.  Spec §4.1: parsing a batch of descriptors preserves input order;
on failure at 1-based index `i` the error names the index and the original
descriptor string verbatim, wrapping the underlying cause, in the format
fixed by the spec's example
`sensor 1 'SHT31,badflag': Unknown sensor option 'badflag'`. -/
def parseSensors (args : List String) : Except String (List SensorFlags) :=
  parseSensorsFrom 1 args

/-! ## The sensor variant factory (SensorFromFlags / BME280SensorFromFlags) -/

/-- `sht3x.MeasureRepeatability` values used by the factory. -/
inductive MeasureRepeatability
  | low
  | medium
  | high
deriving DecidableEq, Repr

/-- The `switch flags.Repeatability` mapping in `SensorFromFlags`. -/
def repeatabilityOfString : String → Option MeasureRepeatability
  | "low" => some .low
  | "medium" => some .medium
  | "high" => some .high
  | _ => none

/-- Abnormal terminations of the factory functions: a Go runtime panic from
writing through a nil pointer, or `log.Fatalf`. -/
inductive GoAbort
  | nilPointerDereference
  | fatalLog (msg : String)
deriving DecidableEq, Repr

/-- The constructed SHT3x sensor variant (the fields `NewSensor` stores;
the transport handle is the external collaborator and is not modelled). -/
structure SHT3xSensor where
  Address : Nat
  Bus : Int
  Model : String
  repeatability : MeasureRepeatability
  repeatability_str : String
deriving DecidableEq, Repr

/-- The constructed BME280 sensor variant. -/
structure BME280Sensor where
  Address : Nat
  Bus : Int
  Model : String
deriving DecidableEq, Repr

/-- `SensorFromFlags` from prometheus-sensor-exporter.go.  For an unset
address the source runs `*flags.Address = 0x45`, a write through a nil
pointer — a runtime panic, modelled as `GoAbort.nilPointerDereference`
(likewise for the bus).  An empty repeatability string is replaced by
"high"; an unrecognized one hits `log.Fatalf`.  The transport open inside
`NewSensor` is an external collaborator modelled as succeeding. -/
def SensorFromFlags (flags : SensorFlags) : Except GoAbort SHT3xSensor :=
  match flags.Address with
  | none => .error .nilPointerDereference
  | some address =>
    match flags.Bus with
    | none => .error .nilPointerDereference
    | some bus =>
      let rep := if flags.Repeatability = "" then "high" else flags.Repeatability
      match repeatabilityOfString rep with
      | none => .error (.fatalLog ("Unknown repeatability: " ++ rep))
      | some r => .ok ⟨address, bus, flags.Model, r, rep⟩

/-- `BME280SensorFromFlags` from prometheus-sensor-exporter.go: same
nil-pointer default-writing slip for address (default 0x76) and bus. -/
def BME280SensorFromFlags (flags : SensorFlags) : Except GoAbort BME280Sensor :=
  match flags.Address with
  | none => .error .nilPointerDereference
  | some address =>
    match flags.Bus with
    | none => .error .nilPointerDereference
    | some bus => .ok ⟨address, bus, flags.Model⟩

/-! ## Theorems for claims C1–C4 and C9 -/

/-- Claim C1, counterexample: a BME280 poll in which the temperature read
succeeds (20 °C) and the humidity read fails returns an error, yet
`Collect` emits three metrics (`sensor_up=0` plus corrected and raw
temperature), not exactly one. -/
theorem collect_error_not_single_metric :
    (BME280SensorPoll (.ok 20) (.error "read failure")).2 = some "read failure" ∧
    (Collect (BME280SensorPoll (.ok 20) (.error "read failure")) 0 0).length = 3 := by
  exact ⟨rfl, by simp [Collect, BME280SensorPoll]⟩

/-- Claim C1, amended: when `Poll` returns an error, `Collect` raises
nothing and emits `sensor_up=0` followed by metrics for whichever readings
the errored poll still populated: exactly one metric for any SHT3x poll
error and for a BME280 temperature-read error, but a BME280 humidity-read
error after a successful temperature read additionally yields the corrected
and raw temperature metrics. -/
theorem collect_after_failed_poll (e : String) (t toff hoff : ℝ)
    (humRead : Except String (Bool × ℝ)) :
    Collect (SHT3xSensorPoll (.error e)) toff hoff = [⟨.Up, 0⟩] ∧
    Collect (BME280SensorPoll (.error e) humRead) toff hoff = [⟨.Up, 0⟩] ∧
    Collect (BME280SensorPoll (.ok t) (.error e)) toff hoff =
      [⟨.Up, 0⟩, ⟨.TemperatureC, round64 t 2 + toff⟩, ⟨.RawTempC, round64 t 2⟩] := by
  refine ⟨?_, ?_, ?_⟩ <;> simp [Collect, SHT3xSensorPoll, BME280SensorPoll]

/-- Claim C2, counterexample: when the BME280 temperature read succeeds at
20 °C and the humidity read then fails, the returned `Readings` does have
its temperature populated (the claim says it is unset). -/
theorem bme280_partial_error_temperature_set :
    (BME280SensorPoll (.ok 20) (.error "boom")).2 = some "boom" ∧
    (BME280SensorPoll (.ok 20) (.error "boom")).1.temperature ≠ none := by
  exact ⟨rfl, by simp [BME280SensorPoll]⟩

/-- Claim C2, amended: any failing raw read makes `Poll` return that error,
and the `Readings` is fully unset for every SHT3x failure and for a BME280
temperature-read failure; but a BME280 humidity-read failure after a
successful temperature read returns the error with the rounded temperature
already populated (only humidity is unset). -/
theorem poll_error_readings (e : String) (t : ℝ) (humRead : Except String (Bool × ℝ)) :
    SHT3xSensorPoll (.error e) = (⟨none, none⟩, some e) ∧
    BME280SensorPoll (.error e) humRead = (⟨none, none⟩, some e) ∧
    BME280SensorPoll (.ok t) (.error e) = (⟨some (round64 t 2), none⟩, some e) := by
  refine ⟨rfl, rfl, rfl⟩

/-- Claim C3, counterexample: for a successful poll with both readings
present (20 °C, 50 %RH, zero offsets) the emitted metric names do not
include `sensor_raw_humidity_grams_per_cubic_meter`: no raw absolute
humidity metric is emitted, contrary to the claim. -/
theorem no_raw_absolute_humidity_metric :
    "sensor_raw_humidity_grams_per_cubic_meter" ∉
      (Collect (⟨some 20, some 50⟩, none) 0 0).map (fun m => descName m.desc) := by
  simp [Collect, descName]

/-- Claim C3, amended: `Collect` emits exactly one absolute-humidity
metric, `sensor_humidity_grams_per_cubic_meter`, computed from the
corrected pair and rounded to 2 decimals, precisely when both temperature
and humidity are present in the `Readings`; no metric named
`sensor_raw_humidity_grams_per_cubic_meter` is ever emitted. -/
theorem absolute_humidity_emission (t h toff hoff : ℝ) (ot oh : Option ℝ)
    (e e' : Option String) :
    (Collect (⟨some t, some h⟩, e) toff hoff).filter (fun m => m.desc == .HumidityGram) =
      [⟨.HumidityGram, round64 (Relative2AbsoluteHumidity (h + hoff) (t + toff)) 2⟩] ∧
    (Collect (⟨none, oh⟩, e) toff hoff).filter (fun m => m.desc == .HumidityGram) = [] ∧
    (Collect (⟨ot, none⟩, e) toff hoff).filter (fun m => m.desc == .HumidityGram) = [] ∧
    ((Collect (⟨ot, oh⟩, e') toff hoff).all
      (fun m => !(descName m.desc == "sensor_raw_humidity_grams_per_cubic_meter"))) = true := by
  refine ⟨?_, ?_, ?_, ?_⟩
  · rcases e with _ | e <;> rfl
  · rcases e with _ | e <;> rcases oh with _ | h' <;> rfl
  · rcases e with _ | e <;> rcases ot with _ | t' <;> rfl
  · rcases e' with _ | e' <;> rcases ot with _ | t' <;> rcases oh with _ | h' <;> rfl

/-- Claim C4: when both readings are present, the value emitted for
`sensor_humidity_grams_per_cubic_meter` is (the 2-decimal rounding of)
`Relative2AbsoluteHumidity` applied with the corrected relative humidity as
the first argument and the corrected temperature as the second. -/
theorem absolute_humidity_argument_order (t h toff hoff : ℝ) (e : Option String) :
    (Collect (⟨some t, some h⟩, e) toff hoff).filter (fun m => m.desc == .HumidityGram) =
      [⟨.HumidityGram, round64 (Relative2AbsoluteHumidity (h + hoff) (t + toff)) 2⟩] := by
  rcases e with _ | e <;> rfl

/-- Claim C9, counterexample: `sensor_raw_temperature_celsius` is emitted by
`Collect` for a successful poll with both readings present, yet its
descriptor is absent from what `Describe` enumerates. -/
theorem describe_misses_raw_temperature :
    "sensor_raw_temperature_celsius" ∈
      (Collect (⟨some 20, some 50⟩, none) 0 0).map (fun m => descName m.desc) ∧
    "sensor_raw_temperature_celsius" ∉ Describe.map descName := by
  constructor
  · simp [Collect, descName]
  · simp [Describe, descName]

/-- Claim C9, amended: `Describe` enumerates exactly the descriptors of
`sensor_temperature_celsius`, `sensor_humidity_percent`,
`sensor_humidity_grams_per_cubic_meter` and `sensor_up` (independent of
hardware state — it is a constant enumeration touching no transport), and
every metric `Collect` can emit is one of those or one of the two raw
descriptors (`sensor_raw_temperature_celsius`,
`sensor_raw_humidity_percent`), which are missing from `Describe`. -/
theorem describe_enumeration (r : Readings) (e : Option String) (toff hoff : ℝ) :
    Describe.map descName =
      ["sensor_temperature_celsius", "sensor_humidity_percent",
       "sensor_humidity_grams_per_cubic_meter", "sensor_up"] ∧
    ((Collect (r, e) toff hoff).all
      (fun m => Describe.contains m.desc || m.desc == .RawTempC || m.desc == .RawHumidityRH))
      = true ∧
    Describe.contains DescField.RawTempC = false ∧
    Describe.contains DescField.RawHumidityRH = false := by
  refine ⟨rfl, ?_, rfl, rfl⟩
  rcases r with ⟨ot, oh⟩
  rcases e with _ | e' <;> rcases ot with _ | t' <;> rcases oh with _ | h' <;> rfl

/-! ## Theorems for claims C5, C7, C8 and C10 -/

/-- Claim C5, evaluation at the claimed input: parsing the canonical
round-trip descriptor and rendering it back yields the string with the
misspelled key `repeatablility` — not the claimed (and repo-test-expected)
key `repeatability` — because `SensorFlags.String` writes the literal
`,repeatablility=`. -/
theorem roundtrip_renders_misspelled_key :
    (parseSensorFlags
        "SHT35,bus=1,address=0x45,repeatability=high,temp_offset=-0.5,humidity_offset=2.5").map
        SensorFlags.RenderString =
      .ok "SHT35,address=0x45,bus=1,repeatablility=high,temp_offset=-0.5,humidity_offset=2.5" ∧
    ("SHT35,address=0x45,bus=1,repeatablility=high,temp_offset=-0.5,humidity_offset=2.5" : String)
      ≠ "SHT35,address=0x45,bus=1,repeatability=high,temp_offset=-0.5,humidity_offset=2.5" := by
  exact ⟨by rfl, by decide⟩

/-- Order-preservation of the batch parser, for any starting index: a
successful batch parse is exactly the element-wise parse in input order. -/
theorem parseSensorsFrom_ok_map :
    ∀ (args : List String) (i : Nat) (flagsList : List SensorFlags),
      parseSensorsFrom i args = .ok flagsList →
      args.map parseSensorFlags = flagsList.map Except.ok := by
  intro args
  induction args with
  | nil =>
    intro i l h
    simp only [parseSensorsFrom] at h
    cases h
    rfl
  | cons a rest ih =>
    intro i l h
    simp only [parseSensorsFrom] at h
    cases hp : parseSensorFlags a with
    | error e => rw [hp] at h; exact absurd h (by simp)
    | ok flags =>
      rw [hp] at h
      cases hr : parseSensorsFrom (i + 1) rest with
      | error e => rw [hr] at h; simp [Except.map] at h
      | ok l' =>
        rw [hr] at h
        simp only [Except.map] at h
        cases h
        simp [List.map, hp, ih (i + 1) l' hr]

/-- Claim C7: a successful batch parse preserves input order (it is the
element-wise parse), and the failing batch `["SHT31,badflag"]` produces an
error whose text starts with
`sensor 1 'SHT31,badflag': Unknown sensor option 'badflag'` — the 1-based
index, the verbatim descriptor, and the wrapped underlying cause. -/
theorem batch_parse_order_and_error :
    (∀ (args : List String) (flagsList : List SensorFlags),
      parseSensors args = .ok flagsList →
      args.map parseSensorFlags = flagsList.map Except.ok) ∧
    (∃ suffix, parseSensors ["SHT31,badflag"] =
      .error ("sensor 1 'SHT31,badflag': Unknown sensor option 'badflag'" ++ suffix)) := by
  constructor
  · intro args l h
    exact parseSensorsFrom_ok_map args 1 l h
  · exact ⟨".", by rfl⟩

/-- Claim C7, witness: the order-preservation part of
`batch_parse_order_and_error` applied to a concrete successful batch. -/
theorem batch_parse_order_and_error_witness :
    ["SHT35", "BME280,bus=0"].map parseSensorFlags =
      [({ Model := "SHT35" } : SensorFlags),
       { Model := "BME280", Bus := some 0 }].map Except.ok :=
  batch_parse_order_and_error.1 ["SHT35", "BME280,bus=0"]
    [{ Model := "SHT35" }, { Model := "BME280", Bus := some 0 }] (by rfl)

/-- Claim C8, evaluation at the failing inputs: with address (or bus) unset
both factories write the family default through a nil pointer and abort with
a runtime panic instead of applying it; when every optional field is set the
explicit values survive unchanged, and an empty repeatability resolves to
"high". -/
theorem factory_defaults_crash :
    SensorFromFlags { Model := "SHT35" } = .error .nilPointerDereference ∧
    SensorFromFlags { Model := "SHT35", Address := some 0x45 } =
      .error .nilPointerDereference ∧
    BME280SensorFromFlags { Model := "BME280" } = .error .nilPointerDereference ∧
    BME280SensorFromFlags { Model := "BME280", Address := some 0x76 } =
      .error .nilPointerDereference ∧
    SensorFromFlags
        { Model := "SHT35", Address := some 0x50, Bus := some 3, Repeatability := "low" } =
      .ok ⟨0x50, 3, "SHT35", .low, "low"⟩ ∧
    BME280SensorFromFlags { Model := "BME280", Address := some 0x40, Bus := some 2 } =
      .ok ⟨0x40, 2, "BME280"⟩ := by
  refine ⟨rfl, rfl, rfl, rfl, rfl, rfl⟩

/-- Claim C10: a bare `repeatability` field and an explicit `repeatability=`
field both parse successfully to the empty string — which is also the
record's zero value for an absent field, so the two are indistinguishable
from that point on — and the factory resolves an empty repeatability exactly
as it would "high", so a full SHT35 descriptor with an empty repeatability
field constructs with repeatability_str "high". -/
theorem empty_repeatability_is_unset :
    (∀ flags : SensorFlags, processField flags "repeatability" =
      .ok { flags with Repeatability := "" }) ∧
    (∀ flags : SensorFlags, processField flags "repeatability=" =
      .ok { flags with Repeatability := "" }) ∧
    (∀ (m : String) (oa : Option Nat) (ob : Option Int) (q1 q2 : ℚ),
      SensorFromFlags ⟨m, oa, ob, "", q1, q2⟩ = SensorFromFlags ⟨m, oa, ob, "high", q1, q2⟩) ∧
    ((parseSensorFlags "SHT35,address=0x45,bus=1,repeatability").map
      (fun f => (SensorFromFlags f).map SHT3xSensor.repeatability_str)) = .ok (.ok "high") ∧
    ((parseSensorFlags "SHT35,address=0x45,bus=1,repeatability=").map
      (fun f => (SensorFromFlags f).map SHT3xSensor.repeatability_str)) = .ok (.ok "high") := by
  refine ⟨fun flags => rfl, fun flags => rfl, ?_, by rfl, by rfl⟩
  intro m oa ob q1 q2
  rcases oa with _ | a
  · rfl
  · rcases ob with _ | b <;> rfl

/-! ## Numeric bounds on the exponential for claim C6 -/

theorem factorial_two : Nat.factorial 2 = 2 := rfl

theorem factorial_three : Nat.factorial 3 = 6 := rfl

theorem factorial_four : Nat.factorial 4 = 24 := rfl

theorem factorial_five : Nat.factorial 5 = 120 := rfl

/-- Degree-6 Taylor bounds for `Real.exp` on `[-1, 1]`, with the error
constant of `Real.exp_bound` evaluated. -/
theorem exp_taylor6_bounds (x : ℝ) (h1 : |x| ≤ 1) :
    (∑ m ∈ Finset.range 6, x ^ m / m.factorial) - |x| ^ 6 * (7 / 4320) ≤ Real.exp x ∧
    Real.exp x ≤ (∑ m ∈ Finset.range 6, x ^ m / m.factorial) + |x| ^ 6 * (7 / 4320) := by
  have hb := @Real.exp_bound x h1 6 (by norm_num)
  have hb2 : |Real.exp x - ∑ m ∈ Finset.range 6, x ^ m / m.factorial| ≤
      |x| ^ 6 * (7 / 4320) := by
    refine le_trans hb (le_of_eq ?_)
    norm_num [Nat.factorial]
  have h3 := abs_sub_le_iff.mp hb2
  exact ⟨by linarith [h3.2], by linarith [h3.1]⟩

theorem exp_taylor6_bounds_witness :
    |(0 : ℝ)| ≤ 1 ∧
      ((∑ m ∈ Finset.range 6, (0 : ℝ) ^ m / m.factorial) - |(0 : ℝ)| ^ 6 * (7 / 4320)
        ≤ Real.exp 0) :=
  ⟨by norm_num, (exp_taylor6_bounds 0 (by norm_num)).1⟩

theorem exp_034175_lb : (1.4073 : ℝ) ≤ Real.exp 0.34175 := by
  have habs : |(0.34175 : ℝ)| = 0.34175 := abs_of_nonneg (by norm_num)
  have h := (exp_taylor6_bounds 0.34175 (by rw [habs]; norm_num)).1
  rw [habs] at h
  refine le_trans ?_ h
  rw [Finset.sum_range_succ, Finset.sum_range_succ, Finset.sum_range_succ,
    Finset.sum_range_succ, Finset.sum_range_succ, Finset.sum_range_succ,
    Finset.sum_range_zero, factorial_two, factorial_three, factorial_four, factorial_five]
  norm_num [Nat.factorial]

theorem exp_034176_ub : Real.exp 0.34176 ≤ 1.4075 := by
  have habs : |(0.34176 : ℝ)| = 0.34176 := abs_of_nonneg (by norm_num)
  have h := (exp_taylor6_bounds 0.34176 (by rw [habs]; norm_num)).2
  rw [habs] at h
  refine le_trans h ?_
  rw [Finset.sum_range_succ, Finset.sum_range_succ, Finset.sum_range_succ,
    Finset.sum_range_succ, Finset.sum_range_succ, Finset.sum_range_succ,
    Finset.sum_range_zero, factorial_two, factorial_three, factorial_four, factorial_five]
  norm_num [Nat.factorial]

theorem exp_neg075750_lb : (0.4682 : ℝ) ≤ Real.exp (-0.75750) := by
  have habs : |(-0.75750 : ℝ)| = 0.75750 := by
    rw [abs_of_nonpos (by norm_num)]; norm_num
  have h := (exp_taylor6_bounds (-0.75750) (by rw [habs]; norm_num)).1
  rw [habs] at h
  refine le_trans ?_ h
  rw [Finset.sum_range_succ, Finset.sum_range_succ, Finset.sum_range_succ,
    Finset.sum_range_succ, Finset.sum_range_succ, Finset.sum_range_succ,
    Finset.sum_range_zero, factorial_two, factorial_three, factorial_four, factorial_five]
  norm_num [Nat.factorial]

theorem exp_neg075749_ub : Real.exp (-0.75749) ≤ 0.4690 := by
  have habs : |(-0.75749 : ℝ)| = 0.75749 := by
    rw [abs_of_nonpos (by norm_num)]; norm_num
  have h := (exp_taylor6_bounds (-0.75749) (by rw [habs]; norm_num)).2
  rw [habs] at h
  refine le_trans h ?_
  rw [Finset.sum_range_succ, Finset.sum_range_succ, Finset.sum_range_succ,
    Finset.sum_range_succ, Finset.sum_range_succ, Finset.sum_range_succ,
    Finset.sum_range_zero, factorial_two, factorial_three, factorial_four, factorial_five]
  norm_num [Nat.factorial]

/-- The exponential of any point of `[1.34175, 1.34176]` lies in
`[3.8254, 3.8260]` (split off `exp 1` and use the Taylor bounds). -/
theorem exp_bounds_assembled (x : ℝ) (hL : (0.34175 : ℝ) ≤ x - 1) (hU : x - 1 ≤ 0.34176) :
    (3.8254 : ℝ) ≤ Real.exp x ∧ Real.exp x ≤ 3.8260 := by
  have hexp : Real.exp x = Real.exp 1 * Real.exp (x - 1) := by
    conv_lhs => rw [show x = 1 + (x - 1) by ring]
    exact Real.exp_add 1 (x - 1)
  have h1L : (2.7182818283 : ℝ) < Real.exp 1 := Real.exp_one_gt_d9
  have h1U : Real.exp 1 < 2.7182818286 := Real.exp_one_lt_d9
  have hsL : (1.4073 : ℝ) ≤ Real.exp (x - 1) :=
    le_trans exp_034175_lb (Real.exp_le_exp.mpr hL)
  have hsU : Real.exp (x - 1) ≤ 1.4075 :=
    le_trans (Real.exp_le_exp.mpr hU) exp_034176_ub
  constructor
  · rw [hexp]; nlinarith [Real.exp_pos (x - 1)]
  · rw [hexp]; nlinarith [Real.exp_pos (x - 1), Real.exp_pos (1 : ℝ)]

theorem exp_bounds_assembled_witness :
    ((0.34175 : ℝ) ≤ (1.341755 : ℝ) - 1) ∧ (3.8254 : ℝ) ≤ Real.exp 1.341755 :=
  ⟨by norm_num, (exp_bounds_assembled 1.341755 (by norm_num) (by norm_num)).1⟩

/-- The exponential of any point of `[-0.75750, -0.75749]` lies in
`[0.4682, 0.4690]`. -/
theorem exp_bounds_assembled_neg (x : ℝ) (hL : (-0.75750 : ℝ) ≤ x) (hU : x ≤ -0.75749) :
    (0.4682 : ℝ) ≤ Real.exp x ∧ Real.exp x ≤ 0.4690 :=
  ⟨le_trans exp_neg075750_lb (Real.exp_le_exp.mpr hL),
   le_trans (Real.exp_le_exp.mpr hU) exp_neg075749_ub⟩

theorem exp_bounds_assembled_neg_witness :
    ((-0.75750 : ℝ) ≤ (-0.757495 : ℝ)) ∧ (0.4682 : ℝ) ≤ Real.exp (-0.757495) :=
  ⟨by norm_num, (exp_bounds_assembled_neg (-0.757495) (by norm_num) (by norm_num)).1⟩

/-- `Relative2AbsoluteHumidity 40 20` lies in `[6.85, 6.95]`. -/
theorem ah_40_20_bounds :
    (6.85 : ℝ) ≤ Relative2AbsoluteHumidity 40 20 ∧ Relative2AbsoluteHumidity 40 20 ≤ 6.95 := by
  have hb := exp_bounds_assembled (((18.678 : ℝ) - 20 / 234.5) * (20 / (257.14 + 20)))
    (by norm_num) (by norm_num)
  unfold Relative2AbsoluteHumidity saturationVaporPressureWater R_water R M_water
  constructor
  · rw [le_div_iff₀ (by norm_num : (0 : ℝ) < 8.31446261815324 / 0.01801528 * (20 + 273.15))]
    linarith [hb.1]
  · rw [div_le_iff₀ (by norm_num : (0 : ℝ) < 8.31446261815324 / 0.01801528 * (20 + 273.15))]
    linarith [hb.2]

/-- `Relative2AbsoluteHumidity 80 (-10)` lies in `[1.85, 1.95]`. -/
theorem ah_80_neg10_bounds :
    (1.85 : ℝ) ≤ Relative2AbsoluteHumidity 80 (-10) ∧
      Relative2AbsoluteHumidity 80 (-10) ≤ 1.95 := by
  have hb := exp_bounds_assembled_neg
    (((18.678 : ℝ) - (-10) / 234.5) * ((-10) / (257.14 + (-10)))) (by norm_num) (by norm_num)
  unfold Relative2AbsoluteHumidity saturationVaporPressureWater R_water R M_water
  constructor
  · rw [le_div_iff₀ (by norm_num : (0 : ℝ) < 8.31446261815324 / 0.01801528 * (-10 + 273.15))]
    linarith [hb.1]
  · rw [div_le_iff₀ (by norm_num : (0 : ℝ) < 8.31446261815324 / 0.01801528 * (-10 + 273.15))]
    linarith [hb.2]

/-- Claim C6: `Relative2AbsoluteHumidity` equals the spec's closed formula at
every input (it is a total function on ℝ × ℝ — deterministic, no failure
mode), and its values at (40 % RH, 20 °C) and (80 % RH, −10 °C) are within
0.05 of 6.9 g/m³ and 1.9 g/m³ respectively. -/
theorem humidity_converter_formula_and_values :
    (∀ rh tC : ℝ, Relative2AbsoluteHumidity rh tC = specAbsoluteHumidity rh tC) ∧
    |Relative2AbsoluteHumidity 40 20 - 6.9| ≤ 0.05 ∧
    |Relative2AbsoluteHumidity 80 (-10) - 1.9| ≤ 0.05 := by
  refine ⟨?_, ?_, ?_⟩
  · intro rh tC
    unfold Relative2AbsoluteHumidity specAbsoluteHumidity saturationVaporPressureWater
      R_water R M_water
    ring
  · rw [abs_le]
    exact ⟨by linarith [ah_40_20_bounds.1], by linarith [ah_40_20_bounds.2]⟩
  · rw [abs_le]
    exact ⟨by linarith [ah_80_neg10_bounds.1], by linarith [ah_80_neg10_bounds.2]⟩

end SensorExporter
